import Mathlib

/-!
Verification development for the crawl orchestration, progress-aggregation
and cooperative-cancellation engine of this repository.

The repository ships the engine's test-suite under
`python/tests/` (`test_crawl_cancellation.py`, `test_socketio_stop_crawl.py`,
`test_knowledge_base_services.py`, `test_rag_crawling_service.py`,
`test_websocket_handlers.py`); the modules those tests import
(`src.server.fastapi.knowledge_api`, `src.server.fastapi.socketio_handlers`,
`src.server.services.knowledge.crawl_orchestration_service`, the
`ProgressMapper` and the crawling service) are not part of the tree.  The
definitions below are therefore shallow models of those missing modules,
built from the specification (§3 data model, §4 component design, §4.3 stop
protocol, §4.2 progress mapper, §4.4 fetch adapter, §6 realtime channel) and
kept consistent with every behaviour the in-tree tests pin down.
-/

/-! ### Association maps

The session registry consists of two process-wide dictionaries keyed by
session id (`_active_orchestrations` and `active_crawl_tasks`).  We model a
dictionary as an association list with dictionary semantics: lookup finds
the first binding, erase removes every binding for the key (a Python dict
holds at most one), insert binds the key after erasing it. -/

def mapLookup {α : Type} : List (String × α) → String → Option α
  | [], _ => none
  | p :: rest, k => if p.1 = k then some p.2 else mapLookup rest k

def mapErase {α : Type} : List (String × α) → String → List (String × α)
  | [], _ => []
  | p :: rest, k => if p.1 = k then mapErase rest k else p :: mapErase rest k

def mapInsert {α : Type} (m : List (String × α)) (k : String) (v : α) :
    List (String × α) :=
  (k, v) :: mapErase m k

theorem mapLookup_mapErase {α : Type} (m : List (String × α)) (k : String) :
    mapLookup (mapErase m k) k = none := by
  induction m with
  | nil => rfl
  | cons p rest ih =>
    by_cases h : p.1 = k
    · simpa [mapErase, h] using ih
    · simpa [mapErase, mapLookup, h] using ih

theorem mapErase_mapErase {α : Type} (m : List (String × α)) (k : String) :
    mapErase (mapErase m k) k = mapErase m k := by
  induction m with
  | nil => rfl
  | cons p rest ih =>
    by_cases h : p.1 = k
    · simpa [mapErase, h] using ih
    · simp [mapErase, h, ih]

theorem mapLookup_mapInsert {α : Type} (m : List (String × α)) (k : String)
    (v : α) : mapLookup (mapInsert m k v) k = some v := by
  simp [mapInsert, mapLookup]

theorem mapErase_mapInsert {α : Type} (m : List (String × α)) (k : String)
    (v : α) : mapErase (mapInsert m k v) k = mapErase m k := by
  simp [mapInsert, mapErase, mapErase_mapErase]

/-! ### Data model: orchestrations, task handles, registry state -/

/-- Modelled from the spec: a `CrawlOrchestrationService` instance as far as
the cancellation protocol sees it — its one-way cancellation flag
(`_cancelled` in the tests), set by `cancel()` and read by `is_cancelled()`.
-/
structure Orchestration where
  cancelled : Bool
deriving DecidableEq, Repr

/-- Modelled from the spec: a cancellable task handle (an asyncio task in the
tests) — whether the run has already finished, and whether a forced cancel
has been requested on it. -/
structure TaskHandle where
  done : Bool
  cancelled : Bool
deriving DecidableEq, Repr

/-- Modelled from the spec: the Session Registry (§3), i.e. the two
process-wide maps `_active_orchestrations` (orchestration-by-id) and
`active_crawl_tasks` (task-handle-by-id). -/
structure EngineState where
  orchestrations : List (String × Orchestration)
  tasks : List (String × TaskHandle)
deriving DecidableEq, Repr

/-! ### Realtime events -/

/-- Destination of an emitted realtime event: either a room (named by a
session id) or a single requesting client (named by its socket id). -/
inductive Dest where
  | toRoom (room : String)
  | toClient (sid : String)
deriving DecidableEq, Repr

/-- Modelled from the spec: one realtime-channel emission
(`sio.emit(eventName, payload, room=...)`): event name, the payload fields
the engine sets (`progressId`, `status`, `message`), and the destination. -/
structure Event where
  name : String
  progressId : Option String
  status : Option String
  message : String
  dest : Dest
deriving DecidableEq, Repr

/-- Number of events in `evs` with event name `n` addressed to `d`. -/
def countEventsTo (evs : List Event) (n : String) (d : Dest) : Nat :=
  (evs.filter (fun e => decide (e.name = n ∧ e.dest = d))).length

/-- Modelled from the spec: the `stopping` status event of stop-protocol
step 1, emitted to the session's room. -/
def mkStopping (id : String) : Event :=
  { name := "crawl:stopping"
    progressId := some id
    status := none
    message := "Stopping crawl operation..."
    dest := Dest.toRoom id }

/-- Modelled from the spec: the `stopped` status event of stop-protocol
step 5, carrying the terminal status value `cancelled`, emitted to the
session's room. -/
def mkStopped (id : String) : Event :=
  { name := "crawl:stopped"
    progressId := some id
    status := some "cancelled"
    message := "Crawl operation cancelled"
    dest := Dest.toRoom id }

/-- Result shape returned by the stop entry points:
`{success: bool, progressId, error?: string}` (§6). -/
structure StopResult where
  success : Bool
  progressId : Option String
  error : Option String
deriving DecidableEq, Repr

/-- Outcome of one stop operation: the registry state after it, the result
returned to the caller, and the events emitted in order. -/
structure StopOutcome where
  state : EngineState
  result : StopResult
  events : List Event
deriving DecidableEq, Repr

/-! ### The two-phase stop protocol (§4.3) -/

/-- Modelled from the spec: `stop_crawl_task(progress_id)`, the two-phase
stop protocol of §4.3.  Step 1 emits `stopping` to the session's room;
step 2 looks up the orchestration by id and, if present, sets its
cancellation flag (in this pure model the flag-set cannot throw, so the
caught-failure path of §4.3 does not arise); step 3 looks up the task
handle and, if present and not already finished, forcibly cancels it, then
removes the task-handle entry; step 4 removes the orchestration entry;
step 5 emits `stopped` with terminal status `cancelled` to the same room.
An id absent from both maps is not an error: the result is still a
success. -/
def stop_crawl_task (s : EngineState) (id : String) : StopOutcome :=
  let orchs1 :=
    match mapLookup s.orchestrations id with
    | some o => mapInsert s.orchestrations id { o with cancelled := true }
    | none => s.orchestrations
  let tasks1 :=
    match mapLookup s.tasks id with
    | some t => if t.done then s.tasks
                else mapInsert s.tasks id { t with cancelled := true }
    | none => s.tasks
  { state :=
      { orchestrations := mapErase orchs1 id
        tasks := mapErase tasks1 id }
    result := { success := true, progressId := some id, error := none }
    events := [mkStopping id, mkStopped id] }

/-- Modelled from the spec: the realtime-channel stop entry point
`crawl_stop(sid, data)`.  A payload lacking `progress_id` yields
`{success: false, error: 'progress_id required'}` and a single `error`
event addressed to the requesting client only; otherwise the shared
two-phase protocol runs for the given id. -/
def crawl_stop (s : EngineState) (sid : String) (progressId : Option String) :
    StopOutcome :=
  match progressId with
  | none =>
      { state := s
        result := { success := false, progressId := none
                    error := some "progress_id required" }
        events := [{ name := "error", progressId := none, status := none
                     message := "progress_id required"
                     dest := Dest.toClient sid }] }
  | some pid => stop_crawl_task s pid

/-! ### Cancellation flag operations (§4.1) -/

/-- Modelled from the spec: `cancel(session_id)` — set the session's
cancellation flag to true; an id with no registered orchestration (never
started, or already finished and unregistered) makes the call a no-op. -/
def cancel (s : EngineState) (id : String) : EngineState :=
  match mapLookup s.orchestrations id with
  | some o =>
      { s with orchestrations :=
          mapInsert s.orchestrations id { o with cancelled := true } }
  | none => s

/-- Modelled from the spec: `is_cancelled(session_id)` — read the session's
cancellation flag; false when no orchestration is registered for the id. -/
def is_cancelled (s : EngineState) (id : String) : Bool :=
  match mapLookup s.orchestrations id with
  | some o => o.cancelled
  | none => false

/-! ### Crawl Orchestrator execution (§4.1) -/

/-- Modelled from the spec: a `StageResult`, the per-URL outcome produced by
the Fetch Adapter (§3): success flag, extracted content when present, and
an error message present iff the fetch failed. -/
structure StageResult where
  success : Bool
  url : String
  content : Option String
  error : Option String
deriving DecidableEq, Repr

/-- Terminal (and only observable, in this model) outcomes of one session:
`COMPLETED`, `CANCELLED`, `ERROR` (§4.1). -/
inductive SessionStatus where
  | completed
  | cancelled
  | error
deriving DecidableEq, Repr

/-- Modelled from the spec: a `ProgressEvent` emitted by the Orchestrator
while processing one URL (§3): the URL, an error indicator when the URL
failed, and a free-text message. -/
structure ProgEvent where
  url : String
  isError : Bool
  message : String
deriving DecidableEq, Repr

/-- Outcome of one Orchestrator run: terminal status, the URLs attempted in
order, the recorded failures and successes, and the progress events emitted
in order. -/
structure CrawlRun where
  status : SessionStatus
  attempted : List String
  failures : List String
  successes : List String
  events : List ProgEvent
deriving DecidableEq, Repr

/-- Progress event the Orchestrator emits after fetching one URL: it carries
an error indicator exactly when the fetch failed. -/
def mkProgEvent (u : String) (r : StageResult) : ProgEvent :=
  { url := u
    isError := !r.success
    message := if r.success then "Crawled " ++ u else "Failed to crawl " ++ u }

/-- Modelled from the spec: the Orchestrator's per-URL loop (§4.1), driven
from checkpoint index `i`.  `flag i` is the value of the session's
cancellation flag at the checkpoint before the `i`-th URL; if it is set the
run unwinds to `CANCELLED` without attempting later URLs.  A failing URL is
recorded, reported via a progress event carrying the error indicator, and
the loop continues with the remaining URLs; when the loop finishes without
the flag ever being set the run is `COMPLETED`. -/
def executeFrom (fetch : String → StageResult) (flag : Nat → Bool) :
    Nat → List String → CrawlRun
  | _, [] =>
      { status := SessionStatus.completed, attempted := []
        failures := [], successes := [], events := [] }
  | i, u :: rest =>
      if flag i then
        { status := SessionStatus.cancelled, attempted := []
          failures := [], successes := [], events := [] }
      else
        let r := fetch u
        let tail := executeFrom fetch flag (i + 1) rest
        { status := tail.status
          attempted := u :: tail.attempted
          failures := if r.success then tail.failures else u :: tail.failures
          successes := if r.success then u :: tail.successes else tail.successes
          events := mkProgEvent u r :: tail.events }

/-- Modelled from the spec: `execute(session_id)` for a session whose
ordered URL list is `urls`, abstracted over the per-URL fetch results and
the cancellation-flag history. -/
def execute_crawl (fetch : String → StageResult) (flag : Nat → Bool)
    (urls : List String) : CrawlRun :=
  executeFrom fetch flag 0 urls

/-! ### Progress Mapper (§4.2) -/

/-- Clamp a stage-local progress value to the interval `[0, 100]`. -/
def clampProgress (x : Int) : Int := max 0 (min 100 x)

/-- Modelled from the spec: each stage's declared sub-range of the overall
0–100 scale, as `(range_start, range_end)`.  The spec leaves the exact
boundaries as implementer-chosen constants (§9); the constants here are the
contiguous ranges consistent with every value the in-tree mapper tests pin
(`initializing 0 → 0`, `crawling 50 → 25`, `processing 100 → 50`,
`indexing 50 → 75`, `completed 100 → 100`).  An unknown stage name gets the
default full range. -/
def stageRange (stage : String) : Nat × Nat :=
  if stage = "initializing" then (0, 10)
  else if stage = "crawling" then (10, 40)
  else if stage = "processing" then (40, 50)
  else if stage = "indexing" then (50, 100)
  else if stage = "completed" then (100, 100)
  else (0, 100)

/-- The pipeline's stage order, used to state stage-boundary alignment. -/
def stageOrder : List String :=
  ["initializing", "crawling", "processing", "indexing", "completed"]

/-- Modelled from the spec: the pure mapping
`overall(stage, stage_progress)` of §4.2 — the input is clamped to
`[0, 100]`, then `overall = range_start + stage_progress * range_width / 100`
over the stage's declared sub-range; an unknown stage maps over the default
full range. -/
def map_progress (stage : String) (p : Int) : Nat :=
  let r := stageRange stage
  r.1 + (clampProgress p).toNat * (r.2 - r.1) / 100

theorem stageRange_le (stage : String) :
    (stageRange stage).1 ≤ (stageRange stage).2 ∧ (stageRange stage).2 ≤ 100 := by
  unfold stageRange
  split_ifs <;> simp

theorem clampProgress_idem (x : Int) :
    clampProgress (clampProgress x) = clampProgress x := by
  unfold clampProgress
  rcases le_total x 0 with h | h
  · simp [min_def, max_def]
    omega
  · simp [min_def, max_def]
    split_ifs <;> omega

theorem clampProgress_nonneg (x : Int) : 0 ≤ clampProgress x :=
  le_max_left 0 _

theorem clampProgress_le_100 (x : Int) : clampProgress x ≤ 100 := by
  unfold clampProgress
  rcases le_total x 100 with h | h <;> simp [min_def, max_def] <;> omega

theorem clampProgress_mono {x y : Int} (h : x ≤ y) :
    clampProgress x ≤ clampProgress y := by
  unfold clampProgress
  exact max_le_max le_rfl (min_le_min le_rfl h)

/-! ### Fetch Adapter retry loop (§4.4) -/

/-- Result shape returned by `crawl_single_page`: success flag, URL and an
error message present exactly on failure. -/
structure CrawlPageResult where
  success : Bool
  url : String
  error : Option String
deriving DecidableEq, Repr

/-- The failure result returned after exhausting the retry budget: its error
message states `Failed to crawl <url> after <N> attempts`. -/
def crawlFailure (url : String) (total : Nat) : CrawlPageResult :=
  { success := false
    url := url
    error := some ("Failed to crawl " ++ url ++ " after " ++ toString total
      ++ " attempts") }

/-- Modelled from the spec: the retry loop inside `crawl_single_page`
(§4.4).  `engine i` is the outcome of the `i`-th invocation of the external
crawl engine; `fuel` counts the attempts still allowed out of the total
budget `total`.  The pair returned is the final `StageResult`-shaped value
together with the number of engine invocations made. -/
def crawlGo (engine : Nat → CrawlPageResult) (url : String) (total : Nat) :
    Nat → Nat → CrawlPageResult × Nat
  | _, 0 => (crawlFailure url total, total)
  | i, fuel + 1 =>
      let r := engine i
      if r.success then (r, i + 1) else crawlGo engine url total (i + 1) fuel

/-- Modelled from the spec: `crawl_single_page(url, retry_count)` /
`fetchOne(url, maxRetries)` (§4.4) — attempt the external crawl up to
`retry_count` times; on each failed attempt retry; after exhausting the
budget return the failure result naming the URL and the attempt count.
Returns the result and the number of engine invocations. -/
def crawl_single_page (engine : Nat → CrawlPageResult) (url : String)
    (retry_count : Nat) : CrawlPageResult × Nat :=
  crawlGo engine url retry_count 0 retry_count

/-! ### Realtime Broadcaster rate limiting (§6) -/

/-- Modelled from the spec: the statuses that always bypass throttling
(`payload.status ∈ {starting, completed, complete, error}`, §6). -/
def importantStatuses : List String :=
  ["starting", "completed", "complete", "error"]

/-- Modelled from the spec: the fixed throttle interval, in milliseconds.
The spec leaves the constant implementer-chosen within 200–500 ms (§9). -/
def RATE_LIMIT_MS : Nat := 500

/-- Modelled from the spec: the Broadcaster's per-session rate-limiter
state — the last emitted timestamp per session id (§3). -/
structure BroadcasterState where
  lastEmit : List (String × Nat)
deriving DecidableEq, Repr

/-- Whether a progress event for session `id` with the given status may be
emitted at time `now`: important statuses always pass; otherwise the event
passes only when no emission for the session is on record or the fixed
interval has elapsed since the last one. -/
def shouldEmit (st : BroadcasterState) (now : Nat) (id : String)
    (status : String) : Bool :=
  importantStatuses.contains status ||
    match mapLookup st.lastEmit id with
    | none => true
    | some t => decide (t + RATE_LIMIT_MS ≤ now)

/-- Modelled from the spec: `broadcast_crawl_progress` for one update —
emit (recording the timestamp) when the rate limiter allows it, otherwise
drop the update.  Returns the new state and whether the event was
emitted. -/
def broadcast_crawl_progress (st : BroadcasterState) (now : Nat) (id : String)
    (status : String) : BroadcasterState × Bool :=
  if shouldEmit st now id status then
    ({ lastEmit := mapInsert st.lastEmit id now }, true)
  else (st, false)

/-- Run a sequence of `(timestamp, status)` updates for one session through
the Broadcaster, counting how many were actually emitted. -/
def runBroadcasts (id : String) (st : BroadcasterState) :
    List (Nat × String) → BroadcasterState × Nat
  | [] => (st, 0)
  | (now, status) :: rest =>
      let step := broadcast_crawl_progress st now id status
      let tail := runBroadcasts id step.1 rest
      (tail.1, (if step.2 then 1 else 0) + tail.2)

/-! ### Claim theorems -/

/-- Claim C1: for every session id unknown to the engine (present in neither
registry map), the stop operation returns a result with `success = true` and
still emits exactly one `stopping` event and exactly one `stopped` event to
the room named by that id. -/
theorem claim_C1_stop_unknown_id (s : EngineState) (id : String)
    (_h1 : mapLookup s.orchestrations id = none)
    (_h2 : mapLookup s.tasks id = none) :
    (stop_crawl_task s id).result.success = true ∧
    countEventsTo (stop_crawl_task s id).events "crawl:stopping"
      (Dest.toRoom id) = 1 ∧
    countEventsTo (stop_crawl_task s id).events "crawl:stopped"
      (Dest.toRoom id) = 1 := by
  refine ⟨rfl, ?_, ?_⟩ <;>
    simp [stop_crawl_task, countEventsTo, mkStopping, mkStopped,
      List.filter]

/-- Witness for C1 at a concrete empty registry and a fresh id. -/
theorem claim_C1_stop_unknown_id_witness :
    (stop_crawl_task { orchestrations := [], tasks := [] }
      "unknown-id").result.success = true ∧
    countEventsTo (stop_crawl_task { orchestrations := [], tasks := [] }
      "unknown-id").events "crawl:stopping" (Dest.toRoom "unknown-id") = 1 ∧
    countEventsTo (stop_crawl_task { orchestrations := [], tasks := [] }
      "unknown-id").events "crawl:stopped" (Dest.toRoom "unknown-id") = 1 :=
  claim_C1_stop_unknown_id { orchestrations := [], tasks := [] } "unknown-id"
    rfl rfl

/-- Claim C2: for every session id and every prior registry state, after
`stop(id)` completes the id is absent from both registry maps. -/
theorem claim_C2_stop_clears_registry (s : EngineState) (id : String) :
    mapLookup (stop_crawl_task s id).state.orchestrations id = none ∧
    mapLookup (stop_crawl_task s id).state.tasks id = none :=
  ⟨mapLookup_mapErase _ _, mapLookup_mapErase _ _⟩

/-- Claim C3: for every session on which stop is invoked — through the API
entry point or the realtime-channel entry point, which drives the same
protocol — the emitted event sequence is the `stopping` event followed by
the `stopped` event, both to the session's room, and the `stopped` event
carries the terminal status value `cancelled`. -/
theorem claim_C3_stopping_before_stopped (s : EngineState) (id : String) :
    (stop_crawl_task s id).events = [mkStopping id, mkStopped id] ∧
    (∀ sid : String, (crawl_stop s sid (some id)).events
      = [mkStopping id, mkStopped id]) ∧
    (mkStopping id).name = "crawl:stopping" ∧
    (mkStopped id).name = "crawl:stopped" ∧
    (mkStopping id).dest = Dest.toRoom id ∧
    (mkStopped id).dest = Dest.toRoom id ∧
    (mkStopped id).status = some "cancelled" :=
  ⟨rfl, fun _ => rfl, rfl, rfl, rfl, rfl, rfl⟩

/-- Insert for the same key twice keeps only the last binding. -/
theorem mapInsert_mapInsert {α : Type} (m : List (String × α)) (k : String)
    (v w : α) : mapInsert (mapInsert m k v) k w = mapInsert m k w := by
  simp [mapInsert, mapErase, mapErase_mapErase]

/-- Claim C4: `cancel(id)` is idempotent — calling it twice is the same
engine state as calling it once; `is_cancelled(id)` is true after either
when the session is running (registered); and a cancel after the run has
already finished (id no longer registered) is a no-op that still
succeeds. -/
theorem claim_C4_cancel_idempotent (s : EngineState) (id : String) :
    cancel (cancel s id) id = cancel s id ∧
    ((mapLookup s.orchestrations id).isSome →
      is_cancelled (cancel s id) id = true ∧
      is_cancelled (cancel (cancel s id) id) id = true) ∧
    (mapLookup s.orchestrations id = none → cancel s id = s) := by
  cases h : mapLookup s.orchestrations id with
  | none =>
      exact ⟨by simp [cancel, h], by simp, fun _ => by simp [cancel, h]⟩
  | some o =>
      have hone : cancel s id
          = { s with orchestrations :=
              mapInsert s.orchestrations id { cancelled := true } } := by
        simp [cancel, h]
      have htwo :
          cancel
            { s with orchestrations :=
                mapInsert s.orchestrations id { cancelled := true } }
            id
          = { s with orchestrations :=
              mapInsert s.orchestrations id { cancelled := true } } := by
        simp [cancel, mapLookup_mapInsert, mapInsert_mapInsert]
      have hidem : cancel (cancel s id) id = cancel s id := by
        rw [hone, htwo]
      have hcanc : is_cancelled (cancel s id) id = true := by
        rw [hone]
        simp [is_cancelled, mapLookup_mapInsert]
      exact ⟨hidem, fun _ => ⟨hcanc, by rw [hidem]; exact hcanc⟩,
        fun hn => by simp [h] at hn⟩

/-- Registry state holding one running, not yet cancelled session `s1`. -/
def sampleRegistry : EngineState :=
  { orchestrations := [("s1", { cancelled := false })], tasks := [] }

/-- Witness for C4 at a concrete running session. -/
theorem claim_C4_cancel_idempotent_witness :
    cancel (cancel sampleRegistry "s1") "s1" = cancel sampleRegistry "s1" ∧
    is_cancelled (cancel sampleRegistry "s1") "s1" = true :=
  ⟨(claim_C4_cancel_idempotent sampleRegistry "s1").1,
   ((claim_C4_cancel_idempotent sampleRegistry "s1").2.1 (by decide)).1⟩

/-- A run whose cancellation flag never fires completes and attempts every
URL in order. -/
theorem executeFrom_not_cancelled (fetch : String → StageResult)
    (flag : Nat → Bool) (hflag : ∀ i, flag i = false) :
    ∀ (urls : List String) (n : Nat),
      (executeFrom fetch flag n urls).status = SessionStatus.completed ∧
      (executeFrom fetch flag n urls).attempted = urls := by
  intro urls
  induction urls with
  | nil => intro n; exact ⟨rfl, rfl⟩
  | cons u rest ih =>
      intro n
      have h := ih (n + 1)
      simp [executeFrom, hflag n]
      exact ⟨h.1, h.2⟩

/-- In a run whose cancellation flag never fires, a URL whose fetch fails is
recorded among the failures and reported by a progress event carrying the
error indicator. -/
theorem executeFrom_failure_recorded (fetch : String → StageResult)
    (flag : Nat → Bool) (hflag : ∀ i, flag i = false) (u : String)
    (hf : (fetch u).success = false) :
    ∀ (urls : List String) (n : Nat), u ∈ urls →
      u ∈ (executeFrom fetch flag n urls).failures ∧
      ∃ e ∈ (executeFrom fetch flag n urls).events,
        e.url = u ∧ e.isError = true := by
  intro urls
  induction urls with
  | nil => intro n hu; cases hu
  | cons v rest ih =>
      intro n hu
      rcases List.mem_cons.mp hu with hv | hrest
      · subst hv
        constructor
        · simp [executeFrom, hflag n, hf]
        · refine ⟨mkProgEvent u (fetch u), ?_, rfl, ?_⟩
          · simp [executeFrom, hflag n]
          · simp [mkProgEvent, hf]
      · have h := ih (n + 1) hrest
        constructor
        · simp only [executeFrom, hflag n, if_false, Bool.false_eq_true]
          by_cases hs : (fetch v).success <;> simp [hs, h.1]
        · rcases h.2 with ⟨e, he, heu, herr⟩
          exact ⟨e, by simp [executeFrom, hflag n]; exact Or.inr he,
            heu, herr⟩

/-- Claim C5: a failing URL does not abort the session — in a run that is
never cancelled, the Orchestrator attempts every URL, records the failure,
reports it via a progress event carrying the error indicator, and the
session's overall outcome is `COMPLETED`, not `ERROR`. -/
theorem claim_C5_per_url_failure_non_fatal (fetch : String → StageResult)
    (flag : Nat → Bool) (urls : List String) (u : String)
    (hflag : ∀ i, flag i = false) (hu : u ∈ urls)
    (hf : (fetch u).success = false) :
    (execute_crawl fetch flag urls).status = SessionStatus.completed ∧
    (execute_crawl fetch flag urls).attempted = urls ∧
    u ∈ (execute_crawl fetch flag urls).failures ∧
    ∃ e ∈ (execute_crawl fetch flag urls).events,
      e.url = u ∧ e.isError = true := by
  have h1 := executeFrom_not_cancelled fetch flag hflag urls 0
  have h2 := executeFrom_failure_recorded fetch flag hflag u hf urls 0 hu
  exact ⟨h1.1, h1.2, h2.1, h2.2⟩

/-- Fetch-result table for the witness run: three URLs of which the second
always fails. -/
def witnessFetch (url : String) : StageResult :=
  if url = "https://error-test.com/page2" then
    { success := false, url := url, content := none
      error := some "Failed to crawl" }
  else
    { success := true, url := url, content := some "content", error := none }

/-- Witness for C5: a session with three URLs whose second URL always fails
still completes, attempts all three, and reports the one failure. -/
theorem claim_C5_per_url_failure_non_fatal_witness :
    (execute_crawl witnessFetch (fun _ => false)
      ["https://error-test.com/page1", "https://error-test.com/page2",
        "https://error-test.com/page3"]).status = SessionStatus.completed ∧
    (execute_crawl witnessFetch (fun _ => false)
      ["https://error-test.com/page1", "https://error-test.com/page2",
        "https://error-test.com/page3"]).attempted
      = ["https://error-test.com/page1", "https://error-test.com/page2",
        "https://error-test.com/page3"] ∧
    "https://error-test.com/page2" ∈ (execute_crawl witnessFetch
      (fun _ => false) ["https://error-test.com/page1",
        "https://error-test.com/page2",
        "https://error-test.com/page3"]).failures ∧
    ∃ e ∈ (execute_crawl witnessFetch (fun _ => false)
      ["https://error-test.com/page1", "https://error-test.com/page2",
        "https://error-test.com/page3"]).events,
      e.url = "https://error-test.com/page2" ∧ e.isError = true :=
  claim_C5_per_url_failure_non_fatal witnessFetch (fun _ => false)
    ["https://error-test.com/page1", "https://error-test.com/page2",
      "https://error-test.com/page3"] "https://error-test.com/page2"
    (fun _ => rfl) (by decide) (by decide)

/-- Claim C6: for every stage name and every integer `x` in `[-50, 150]`,
mapping the clamped value equals mapping `x` directly, and the result lies
within the stage's declared sub-range of the overall scale — hence within
`[0, 100]`, also for unknown stage names (whose declared range is the full
scale). -/
theorem claim_C6_clamping_invariant (stage : String) (x : Int)
    (_hlo : -50 ≤ x) (_hhi : x ≤ 150) :
    map_progress stage (clampProgress x) = map_progress stage x ∧
    (stageRange stage).1 ≤ map_progress stage x ∧
    map_progress stage x ≤ (stageRange stage).2 ∧
    map_progress stage x ≤ 100 := by
  have hr := stageRange_le stage
  have ht : (clampProgress x).toNat ≤ 100 :=
    Int.toNat_le.mpr (clampProgress_le_100 x)
  have hdiv : (clampProgress x).toNat * ((stageRange stage).2
      - (stageRange stage).1) / 100
      ≤ (stageRange stage).2 - (stageRange stage).1 := by
    calc (clampProgress x).toNat * ((stageRange stage).2
          - (stageRange stage).1) / 100
        ≤ 100 * ((stageRange stage).2 - (stageRange stage).1) / 100 :=
          Nat.div_le_div_right (Nat.mul_le_mul_right _ ht)
      _ = (stageRange stage).2 - (stageRange stage).1 :=
          Nat.mul_div_cancel_left _ (by norm_num)
  refine ⟨?_, ?_, ?_, ?_⟩
  · unfold map_progress
    rw [clampProgress_idem]
  · exact Nat.le_add_right _ _
  · show (stageRange stage).1 + (clampProgress x).toNat
        * ((stageRange stage).2 - (stageRange stage).1) / 100
        ≤ (stageRange stage).2
    omega
  · show (stageRange stage).1 + (clampProgress x).toNat
        * ((stageRange stage).2 - (stageRange stage).1) / 100 ≤ 100
    omega

/-- Witness for C6 at the crawling stage and an out-of-range input. -/
theorem claim_C6_clamping_invariant_witness :
    map_progress "crawling" (clampProgress 150) = map_progress "crawling" 150 ∧
    (stageRange "crawling").1 ≤ map_progress "crawling" 150 ∧
    map_progress "crawling" 150 ≤ (stageRange "crawling").2 ∧
    map_progress "crawling" 150 ≤ 100 :=
  claim_C6_clamping_invariant "crawling" 150 (by decide) (by decide)

/-- Claim C7: for a fixed stage the mapping is monotone in the stage-local
progress, and at every transition between consecutive pipeline stages the
overall value at the end of the previous stage and at the start of the next
stage agree within the tolerance of 10 points (boundaries align rather than
jump backward). -/
theorem claim_C7_monotone_and_aligned (stage : String) (p1 p2 : Int)
    (h : p1 ≤ p2) :
    map_progress stage p1 ≤ map_progress stage p2 ∧
    ∀ pr ∈ stageOrder.zip stageOrder.tail,
      map_progress pr.2 0 ≤ map_progress pr.1 100 + 10 ∧
      map_progress pr.1 100 ≤ map_progress pr.2 0 + 10 := by
  constructor
  · unfold map_progress
    exact Nat.add_le_add_left
      (Nat.div_le_div_right (Nat.mul_le_mul_right _
        (Int.toNat_le_toNat (clampProgress_mono h)))) _
  · decide

/-- Witness for C7 at the crawling stage with increasing local progress. -/
theorem claim_C7_monotone_and_aligned_witness :
    map_progress "crawling" 30 ≤ map_progress "crawling" 60 ∧
    ∀ pr ∈ stageOrder.zip stageOrder.tail,
      map_progress pr.2 0 ≤ map_progress pr.1 100 + 10 ∧
      map_progress pr.1 100 ≤ map_progress pr.2 0 + 10 :=
  claim_C7_monotone_and_aligned "crawling" 30 60 (by decide)

/-- When every engine invocation fails, the retry loop exhausts its whole
budget and returns the failure result together with the total attempt
count, from any starting attempt index. -/
theorem crawlGo_all_fail (engine : Nat → CrawlPageResult) (url : String)
    (total : Nat) (h : ∀ i, (engine i).success = false) :
    ∀ (fuel i : Nat),
      crawlGo engine url total i fuel = (crawlFailure url total, total) := by
  intro fuel
  induction fuel with
  | zero => intro i; rfl
  | succ n ih => intro i; simp [crawlGo, h i, ih]

/-- Claim C8: for every URL and every retry budget `N`, if every fetch
attempt fails then `crawl_single_page` invokes the underlying crawl engine
exactly `N` times and returns a failure result whose error message contains
the substring `Failed to crawl <url> after <N> attempts`. -/
theorem claim_C8_retry_exhaustion (engine : Nat → CrawlPageResult)
    (url : String) (N : Nat) (h : ∀ i, (engine i).success = false) :
    (crawl_single_page engine url N).2 = N ∧
    (crawl_single_page engine url N).1.success = false ∧
    ∃ pre post : String,
      (crawl_single_page engine url N).1.error
        = some (pre ++ ("Failed to crawl " ++ url ++ " after " ++ toString N
            ++ " attempts") ++ post) := by
  have hrun : crawl_single_page engine url N = (crawlFailure url N, N) :=
    crawlGo_all_fail engine url N h N 0
  rw [hrun]
  refine ⟨rfl, rfl, "", "", ?_⟩
  simp [crawlFailure]

/-- Witness for C8 with a persistently failing engine and budget 2, the
scenario of the max-retries test. -/
theorem claim_C8_retry_exhaustion_witness :
    (crawl_single_page
      (fun _ => { success := false, url := "https://example.com/always-fails"
                  error := some "Persistent failure" })
      "https://example.com/always-fails" 2).2 = 2 ∧
    (crawl_single_page
      (fun _ => { success := false, url := "https://example.com/always-fails"
                  error := some "Persistent failure" })
      "https://example.com/always-fails" 2).1.success = false ∧
    ∃ pre post : String,
      (crawl_single_page
        (fun _ => { success := false, url := "https://example.com/always-fails"
                    error := some "Persistent failure" })
        "https://example.com/always-fails" 2).1.error
        = some (pre ++ ("Failed to crawl https://example.com/always-fails"
            ++ " after 2 attempts") ++ post) :=
  claim_C8_retry_exhaustion
    (fun _ => { success := false, url := "https://example.com/always-fails"
                error := some "Persistent failure" })
    "https://example.com/always-fails" 2 (fun _ => rfl)

/-- Claim C9: a progress event whose status is one of
`{starting, completed, complete, error}` is always emitted, never
throttled; while 100 rapid updates (1 ms apart, within one throttle
interval) for one session with status `crawling` yield a single emission —
materially fewer than 100 — the same 100 updates each with status
`completed` yield exactly 100 emissions. -/
theorem claim_C9_rate_limit_bypass (st : BroadcasterState) (now : Nat)
    (id status : String) (h : status ∈ importantStatuses) :
    (broadcast_crawl_progress st now id status).2 = true ∧
    (runBroadcasts "crawl-123" { lastEmit := [] }
      ((List.range 100).map (fun i => (i, "crawling")))).2 = 1 ∧
    (runBroadcasts "crawl-123" { lastEmit := [] }
      ((List.range 100).map (fun i => (i, "crawling")))).2 < 100 ∧
    (runBroadcasts "crawl-123" { lastEmit := [] }
      ((List.range 100).map (fun i => (i, "completed")))).2 = 100 := by
  refine ⟨?_, by decide, by decide, by decide⟩
  simp [broadcast_crawl_progress, shouldEmit, h]

/-- Witness for C9 at the always-bypassed status `completed`. -/
theorem claim_C9_rate_limit_bypass_witness :
    (broadcast_crawl_progress { lastEmit := [("crawl-123", 0)] } 1
      "crawl-123" "completed").2 = true :=
  (claim_C9_rate_limit_bypass { lastEmit := [("crawl-123", 0)] } 1
    "crawl-123" "completed" (by decide)).1

/-- Claim C10: invoking the realtime-channel stop entry point with a payload
lacking a session id returns `{success: false, error: 'progress_id
required'}` and emits exactly one `error` event addressed only to the
requesting client, with no `stopping` or `stopped` event emitted to any
room. -/
theorem claim_C10_missing_progress_id (s : EngineState) (sid : String) :
    (crawl_stop s sid none).result.success = false ∧
    (crawl_stop s sid none).result.error = some "progress_id required" ∧
    countEventsTo (crawl_stop s sid none).events "error"
      (Dest.toClient sid) = 1 ∧
    (crawl_stop s sid none).events
      = [{ name := "error", progressId := none, status := none
           message := "progress_id required", dest := Dest.toClient sid }] ∧
    (∀ d : Dest,
      countEventsTo (crawl_stop s sid none).events "crawl:stopping" d = 0 ∧
      countEventsTo (crawl_stop s sid none).events "crawl:stopped" d = 0) := by
  refine ⟨rfl, rfl, ?_, rfl, ?_⟩
  · simp [crawl_stop, countEventsTo, List.filter]
  · intro d
    constructor <;> simp [crawl_stop, countEventsTo, List.filter]
